import Mathlib

/-!
Verification of the ESP32 power-button controller (debouncer, rapid-change
burst classifier, and action dispatch).

Shallow embedding conventions:
* Timestamps are `Nat` milliseconds from a monotone clock (`millis()`); the
  C expression `now - t0` on `unsigned long` coincides with truncated `Nat`
  subtraction whenever `now ≥ t0`, which the monotone clock guarantees for
  every stored timestamp in this program.
* `HIGH` is `true`, `LOW` is `false`.
* The blocking side effects of an action (LED writes, pin-mode changes,
  delays) are modelled as an explicit effect trace.
-/

namespace ESP32Case

/-- `DEBOUNCE_MS = 50`: time (ms) to wait for a stable signal. -/
def DEBOUNCE_MS : Nat := 50

/-- `RAPID_CHANGE_WINDOW_MS = 2000`: the 2-second rapid-toggle window. -/
def RAPID_CHANGE_WINDOW_MS : Nat := 2000

/-- `MIN_RAPID_CHANGES_TRIGGER = 3`: minimal toggles for a hard shutdown. -/
def MIN_RAPID_CHANGES_TRIGGER : Nat := 3

/-- `MAX_RAPID_CHANGES_TRIGGER = 6`: maximum toggles for a hard shutdown. -/
def MAX_RAPID_CHANGES_TRIGGER : Nat := 6

/-- Debounce-logic state: `lastReading`, `stableTriggerState`,
`lastChangeTime` (the module-level variables of the sketch). -/
structure DebounceState where
  lastReading : Bool
  stableTriggerState : Bool
  lastChangeTime : Nat
deriving DecidableEq, Repr

/-- One polling tick of the debounce portion of `loop` (identical in both
sketch variants): record a raw edge by restamping `lastChangeTime`, then
commit a new stable state when the (possibly restamped) change time is more
than `DEBOUNCE_MS` ago and the reading differs from the stable state.
Returns the next state and the emitted stable-change event, if any. -/
def debounceStep (s : DebounceState) (now : Nat) (currentReading : Bool) :
    DebounceState × Option Bool :=
  let s1 := if currentReading ≠ s.lastReading then
      { s with lastChangeTime := now, lastReading := currentReading }
    else s
  if now - s1.lastChangeTime > DEBOUNCE_MS ∧ currentReading ≠ s1.stableTriggerState then
    ({ s1 with stableTriggerState := currentReading }, some currentReading)
  else
    (s1, none)

/-- Timestamped event list produced by one tick's optional emission. -/
def eventOut (now : Nat) : Option Bool → List (Nat × Bool)
  | some b => [(now, b)]
  | none => []

/-- Run the debouncer over a list of `(now, rawReading)` ticks, collecting
the emitted stable-change events as `(now, newState)` pairs. -/
def debounceRun (s : DebounceState) (ticks : List (Nat × Bool)) :
    DebounceState × List (Nat × Bool) :=
  ticks.foldl
    (fun acc tk =>
      ((debounceStep acc.1 tk.1 tk.2).1,
        acc.2 ++ eventOut tk.1 (debounceStep acc.1 tk.1 tk.2).2))
    (s, [])

/-- Burst-classifier state: `rapidChangeCount` and `firstChangeInWindow`.
The C `int` counter only ever holds non-negative values here, so `Nat`. -/
structure BurstState where
  rapidChangeCount : Nat
  firstChangeInWindow : Nat
deriving DecidableEq, Repr

/-- Initial burst-classifier state (`rapidChangeCount = 0`,
`firstChangeInWindow = 0` at the module level). -/
def initialBurstState : BurstState := ⟨0, 0⟩

/-- Burst classification reported by one `trackRapidChanges` call. -/
inductive BurstResult where
  | noBurst
  | qualifyingBurst
deriving DecidableEq, Repr

/-- `trackRapidChanges`: if the current window expired, restart it with
count 1; otherwise increment the count. Then, if the count lies in
`[MIN_RAPID_CHANGES_TRIGGER, MAX_RAPID_CHANGES_TRIGGER]`, trigger the hard
shutdown and reset the count to 0. Returns the next state, the count value
the sketch prints ("Rapid changes so far"), and the burst classification. -/
def trackRapidChanges (s : BurstState) (now : Nat) :
    BurstState × Nat × BurstResult :=
  let count1 :=
    if now - s.firstChangeInWindow > RAPID_CHANGE_WINDOW_MS then 1
    else s.rapidChangeCount + 1
  let first1 :=
    if now - s.firstChangeInWindow > RAPID_CHANGE_WINDOW_MS then now
    else s.firstChangeInWindow
  if MIN_RAPID_CHANGES_TRIGGER ≤ count1 ∧ count1 ≤ MAX_RAPID_CHANGES_TRIGGER then
    (⟨0, first1⟩, count1, BurstResult.qualifyingBurst)
  else
    (⟨count1, first1⟩, count1, BurstResult.noBurst)

/-- Variant of `trackRapidChanges` with the upper-threshold comparison
removed, used to show the `MAX_RAPID_CHANGES_TRIGGER` constant never
affects behavior on reachable states. -/
def trackRapidChangesNoMax (s : BurstState) (now : Nat) :
    BurstState × Nat × BurstResult :=
  let count1 :=
    if now - s.firstChangeInWindow > RAPID_CHANGE_WINDOW_MS then 1
    else s.rapidChangeCount + 1
  let first1 :=
    if now - s.firstChangeInWindow > RAPID_CHANGE_WINDOW_MS then now
    else s.firstChangeInWindow
  if MIN_RAPID_CHANGES_TRIGGER ≤ count1 then
    (⟨0, first1⟩, count1, BurstResult.qualifyingBurst)
  else
    (⟨count1, first1⟩, count1, BurstResult.noBurst)

/-- Fold `trackRapidChanges` over a list of stable-change event times,
starting from the module-level initial state. -/
def runBurst (ts : List Nat) : BurstState :=
  ts.foldl (fun s tnow => (trackRapidChanges s tnow).1) initialBurstState

/-- The decision values of the dispatcher. -/
inductive ActionKind where
  | noAction
  | momentaryPress
  | heldShutdown
deriving DecidableEq, Repr

/-- Hold duration (ms) of each action: `delay(200)` in
`simulatePowerButtonPress`, the 4000 ms hold loop in
`simulateHardShutdown`, nothing for `noAction`. -/
def requestDuration : ActionKind → Nat
  | ActionKind.noAction => 0
  | ActionKind.momentaryPress => 200
  | ActionKind.heldShutdown => 4000

/-- `handleTriggerChange` of the state-verified variant: on a stable
transition, read the power LED and press only when the PC is not already
in the requested state. -/
def handleTriggerChange (newTriggerState powerLEDState : Bool) : ActionKind :=
  if newTriggerState then
    if !powerLEDState then ActionKind.momentaryPress else ActionKind.noAction
  else
    if powerLEDState then ActionKind.momentaryPress else ActionKind.noAction

/-- What the burst-aware `loop` body executes on a committed stable change:
`trackRapidChanges` runs first (performing the hard shutdown inside itself
when the burst qualifies), then `simulatePowerButtonPress` runs
unconditionally. Returns the next burst state and the executed actions in
order. -/
def loopStableChangeActions (bs : BurstState) (now : Nat) :
    BurstState × List ActionKind :=
  let out := trackRapidChanges bs now
  (out.1,
    (if out.2.2 = BurstResult.qualifyingBurst then [ActionKind.heldShutdown] else [])
      ++ [ActionKind.momentaryPress])

/-- Direction of the power-button GPIO. -/
inductive PinDir where
  | inputMode
  | outputMode
deriving DecidableEq, Repr

/-- Primitive side effects of action execution. -/
inductive Effect where
  | setPressActiveLED (level : Bool)
  | setPowerBtnMode (d : PinDir)
  | writePowerBtnLow
  | wait (ms : Nat)
deriving DecidableEq, Repr

/-- Effect trace of `simulatePowerButtonPress`: LED on, drive the pin LOW
as an output, wait 200 ms, release to high-impedance input, LED off. -/
def simulatePowerButtonPressTrace : List Effect :=
  [Effect.setPressActiveLED true,
   Effect.setPowerBtnMode PinDir.outputMode,
   Effect.writePowerBtnLow,
   Effect.wait 200,
   Effect.setPowerBtnMode PinDir.inputMode,
   Effect.setPressActiveLED false]

/-- Effect trace of `simulateHardShutdown`: same shape with a ~4000 ms
hold (the 50 ms-step wait loop runs until 4000 ms have elapsed). -/
def simulateHardShutdownTrace : List Effect :=
  [Effect.setPressActiveLED true,
   Effect.setPowerBtnMode PinDir.outputMode,
   Effect.writePowerBtnLow,
   Effect.wait 4000,
   Effect.setPowerBtnMode PinDir.inputMode,
   Effect.setPressActiveLED false]

/-- Effects performed when executing a decided action. -/
def executeTrace : ActionKind → List Effect
  | ActionKind.noAction => []
  | ActionKind.momentaryPress => simulatePowerButtonPressTrace
  | ActionKind.heldShutdown => simulateHardShutdownTrace

/-- Whether the power-button GPIO is being driven (configured as an
output) after running a list of effects, starting from driving state `b`.
Setup leaves the pin in `INPUT` mode, i.e. not driving. -/
def powerBtnDrivingAfter (b : Bool) (es : List Effect) : Bool :=
  es.foldl
    (fun d e =>
      match e with
      | Effect.setPowerBtnMode PinDir.outputMode => true
      | Effect.setPowerBtnMode PinDir.inputMode => false
      | _ => d)
    b

/-- Concatenated effect trace of a sequence of executed actions. -/
def executeAllTrace : List ActionKind → List Effect
  | [] => []
  | k :: ks => executeTrace k ++ executeAllTrace ks

/-- Whether tick `i` of the raw sample stream `r` is a raw edge, i.e. the
reading differs from the previous `lastReading` (which after tick `i - 1`
always equals `r (i-1)`, and initially equals `s0last`). -/
def isRawEdge (s0last : Bool) (r : Nat → Bool) (i : Nat) : Bool :=
  if i = 0 then r 0 != s0last else r i != r (i - 1)

/-- Run the debouncer over the first `n` ticks of the sample stream given
by a clock `t` and readings `r`. -/
def debounceRunF (s0 : DebounceState) (t : Nat → Nat) (r : Nat → Bool)
    (n : Nat) : DebounceState × List (Nat × Bool) :=
  debounceRun s0 ((List.range n).map (fun i => (t i, r i)))

/-- Scenario A raw sample stream: LOW, LOW, HIGH, LOW, HIGH, HIGH, HIGH,
then HIGH forever. -/
def rawA : Nat → Bool := fun i => decide (2 ≤ i ∧ i ≠ 3)

/-- Scenario A run: samples every 10 ms starting at t = 0, debouncer
initialised from an initial LOW reading at time 0. -/
def debounceRunA (n : Nat) : DebounceState × List (Nat × Bool) :=
  debounceRunF ⟨false, false, 0⟩ (fun i => 10 * i) rawA n

/-- Classifier state after processing the first `k` stable-change events
of the event-time stream `t`, starting from `s0`. -/
def runBurstEvents (s0 : BurstState) (t : Nat → Nat) : Nat → BurstState
  | 0 => s0
  | k + 1 => (trackRapidChanges (runBurstEvents s0 t k) (t k)).1

/-- The count value reported ("Rapid changes so far") at event `k`. -/
def reportedAt (s0 : BurstState) (t : Nat → Nat) (k : Nat) : Nat :=
  (trackRapidChanges (runBurstEvents s0 t k) (t k)).2.1

/-- The burst classification produced at event `k`. -/
def burstAt (s0 : BurstState) (t : Nat → Nat) (k : Nat) : BurstResult :=
  (trackRapidChanges (runBurstEvents s0 t k) (t k)).2.2

/-- C1: the debouncer records a raw edge by restamping `lastChangeTime`
and `lastReading`; it commits a stable change, emitting the new state, iff
the time since the (restamped) last change strictly exceeds `DEBOUNCE_MS`
and the reading differs from the stable state; otherwise it emits nothing
and the stable state is unchanged. -/
theorem debounceStep_characterization (s : DebounceState) (now : Nat) (raw : Bool) :
    (raw ≠ s.lastReading →
      (debounceStep s now raw).1.lastChangeTime = now ∧
      (debounceStep s now raw).1.lastReading = raw) ∧
    ((now - (if raw ≠ s.lastReading then now else s.lastChangeTime) > DEBOUNCE_MS ∧
        raw ≠ s.stableTriggerState) →
      (debounceStep s now raw).1.stableTriggerState = raw ∧
      (debounceStep s now raw).2 = some raw) ∧
    (¬(now - (if raw ≠ s.lastReading then now else s.lastChangeTime) > DEBOUNCE_MS ∧
        raw ≠ s.stableTriggerState) →
      (debounceStep s now raw).2 = none ∧
      (debounceStep s now raw).1.stableTriggerState = s.stableTriggerState) := by
  by_cases h1 : raw = s.lastReading
  · subst h1
    by_cases hgt : DEBOUNCE_MS < now - s.lastChangeTime <;>
      by_cases hst : s.lastReading = s.stableTriggerState <;>
        simp [debounceStep, hgt, hst]
  · simp [debounceStep, h1, DEBOUNCE_MS]

/-- Witness for C1 at concrete inputs: an edge tick restamps the change
time and emits nothing; an edge-free over-interval tick commits. -/
theorem debounceStep_characterization_witness :
    ((debounceStep ⟨false, false, 0⟩ 100 true).1.lastChangeTime = 100 ∧
      (debounceStep ⟨false, false, 0⟩ 100 true).2 = none) ∧
    ((debounceStep ⟨true, false, 0⟩ 100 true).1.stableTriggerState = true ∧
      (debounceStep ⟨true, false, 0⟩ 100 true).2 = some true) :=
  ⟨⟨((debounceStep_characterization ⟨false, false, 0⟩ 100 true).1 (by decide)).1,
    ((debounceStep_characterization ⟨false, false, 0⟩ 100 true).2.2 (by decide)).1⟩,
   (debounceStep_characterization ⟨true, false, 0⟩ 100 true).2.1 (by decide)⟩

/-- C2: one burst-classifier step. If the window expired the state becomes
count 1 anchored at `now` and no burst is reported; otherwise the count is
incremented, and a qualifying burst is reported (resetting the count to 0)
exactly when the incremented count lies in the inclusive trigger range. -/
theorem trackRapidChanges_characterization (s : BurstState) (now : Nat) :
    (now - s.firstChangeInWindow > RAPID_CHANGE_WINDOW_MS →
      trackRapidChanges s now = (⟨1, now⟩, 1, BurstResult.noBurst)) ∧
    (now - s.firstChangeInWindow ≤ RAPID_CHANGE_WINDOW_MS →
      (trackRapidChanges s now).2.1 = s.rapidChangeCount + 1 ∧
      (MIN_RAPID_CHANGES_TRIGGER ≤ s.rapidChangeCount + 1 ∧
          s.rapidChangeCount + 1 ≤ MAX_RAPID_CHANGES_TRIGGER →
        (trackRapidChanges s now).2.2 = BurstResult.qualifyingBurst ∧
        (trackRapidChanges s now).1.rapidChangeCount = 0) ∧
      (¬(MIN_RAPID_CHANGES_TRIGGER ≤ s.rapidChangeCount + 1 ∧
          s.rapidChangeCount + 1 ≤ MAX_RAPID_CHANGES_TRIGGER) →
        (trackRapidChanges s now).2.2 = BurstResult.noBurst ∧
        (trackRapidChanges s now).1.rapidChangeCount = s.rapidChangeCount + 1)) := by
  by_cases hw : now - s.firstChangeInWindow > RAPID_CHANGE_WINDOW_MS
  · refine ⟨fun _ => ?_, fun hle => absurd hw (by omega)⟩
    simp [trackRapidChanges, hw, MIN_RAPID_CHANGES_TRIGGER, MAX_RAPID_CHANGES_TRIGGER]
  · refine ⟨fun hgt => absurd hgt hw, fun _ => ?_⟩
    by_cases hq : MIN_RAPID_CHANGES_TRIGGER ≤ s.rapidChangeCount + 1 ∧
        s.rapidChangeCount + 1 ≤ MAX_RAPID_CHANGES_TRIGGER
    · simp [trackRapidChanges, hw, hq]
    · simp [trackRapidChanges, hw, hq]

/-- Witness for C2 at concrete inputs: an expired window restarts at
count 1 with no burst; a third in-window event fires a qualifying burst. -/
theorem trackRapidChanges_characterization_witness :
    trackRapidChanges ⟨1, 0⟩ 2500 = (⟨1, 2500⟩, 1, BurstResult.noBurst) ∧
    (trackRapidChanges ⟨2, 0⟩ 1000).2.2 = BurstResult.qualifyingBurst ∧
    (trackRapidChanges ⟨2, 0⟩ 1000).1.rapidChangeCount = 0 :=
  ⟨(trackRapidChanges_characterization ⟨1, 0⟩ 2500).1 (by decide),
   ((trackRapidChanges_characterization ⟨2, 0⟩ 1000).2 (by decide)).2.1 (by decide)⟩

/-- C3: the state-verified dispatcher presses exactly when the stable
state and the power-LED reading disagree (HIGH with LED off, or LOW with
LED on), does nothing otherwise, and never performs a held shutdown. -/
theorem handleTriggerChange_characterization :
    ∀ s p : Bool,
      (handleTriggerChange s p = ActionKind.momentaryPress ↔
        ((s = true ∧ p = false) ∨ (s = false ∧ p = true))) ∧
      (¬((s = true ∧ p = false) ∨ (s = false ∧ p = true)) →
        handleTriggerChange s p = ActionKind.noAction) ∧
      handleTriggerChange s p ≠ ActionKind.heldShutdown := by
  decide

/-- Witness for C3 at concrete inputs: Scenario D. -/
theorem handleTriggerChange_characterization_witness :
    handleTriggerChange true false = ActionKind.momentaryPress ∧
    handleTriggerChange true true = ActionKind.noAction :=
  ⟨(handleTriggerChange_characterization true false).1.mpr (Or.inl ⟨rfl, rfl⟩),
   (handleTriggerChange_characterization true true).2.1 (by decide)⟩

/-- C4: in the burst-aware variant every committed stable change executes
a momentary press (200 ms); when the classifier reports a qualifying
burst, a held shutdown (4000 ms) is executed in addition to and strictly
before the press, and otherwise the press is the only action. -/
theorem loopStableChange_burstAware (bs : BurstState) (now : Nat) :
    ActionKind.momentaryPress ∈ (loopStableChangeActions bs now).2 ∧
    ((trackRapidChanges bs now).2.2 = BurstResult.qualifyingBurst →
      (loopStableChangeActions bs now).2 =
        [ActionKind.heldShutdown, ActionKind.momentaryPress]) ∧
    ((trackRapidChanges bs now).2.2 = BurstResult.noBurst →
      (loopStableChangeActions bs now).2 = [ActionKind.momentaryPress]) ∧
    requestDuration ActionKind.momentaryPress = 200 ∧
    requestDuration ActionKind.heldShutdown = 4000 := by
  by_cases h : (trackRapidChanges bs now).2.2 = BurstResult.qualifyingBurst
  · simp [loopStableChangeActions, h, requestDuration]
  · simp [loopStableChangeActions, h, requestDuration]

/-- Witness for C4 at concrete inputs: a qualifying third in-window event
yields held shutdown before press; a first event yields only the press. -/
theorem loopStableChange_burstAware_witness :
    (loopStableChangeActions ⟨2, 0⟩ 1000).2 =
      [ActionKind.heldShutdown, ActionKind.momentaryPress] ∧
    (loopStableChangeActions ⟨0, 0⟩ 100).2 = [ActionKind.momentaryPress] :=
  ⟨(loopStableChange_burstAware ⟨2, 0⟩ 1000).2.1 (by decide),
   (loopStableChange_burstAware ⟨0, 0⟩ 100).2.2.1 (by decide)⟩

/-- C10: frame of one classifier step: a qualifying burst only resets
`rapidChangeCount` to 0 and leaves `firstChangeInWindow` unchanged, and
every in-window (non-expired) step leaves `firstChangeInWindow`
unchanged. -/
theorem trackRapidChanges_frame (s : BurstState) (now : Nat) :
    ((trackRapidChanges s now).2.2 = BurstResult.qualifyingBurst →
      (trackRapidChanges s now).1.firstChangeInWindow = s.firstChangeInWindow ∧
      (trackRapidChanges s now).1.rapidChangeCount = 0) ∧
    (now - s.firstChangeInWindow ≤ RAPID_CHANGE_WINDOW_MS →
      (trackRapidChanges s now).1.firstChangeInWindow = s.firstChangeInWindow) := by
  by_cases hw : now - s.firstChangeInWindow > RAPID_CHANGE_WINDOW_MS
  · refine ⟨?_, fun hle => absurd hw (by omega)⟩
    simp [trackRapidChanges, hw, MIN_RAPID_CHANGES_TRIGGER, MAX_RAPID_CHANGES_TRIGGER]
  · by_cases hq : MIN_RAPID_CHANGES_TRIGGER ≤ s.rapidChangeCount + 1 ∧
        s.rapidChangeCount + 1 ≤ MAX_RAPID_CHANGES_TRIGGER
    · simp [trackRapidChanges, hw, hq]
    · simp [trackRapidChanges, hw, hq]

/-- Witness for C10 at a concrete input: the qualifying burst at the third
in-window event keeps the window anchor and zeroes the count. -/
theorem trackRapidChanges_frame_witness :
    (trackRapidChanges ⟨2, 5⟩ 1000).1.firstChangeInWindow = 5 ∧
    (trackRapidChanges ⟨2, 5⟩ 1000).1.rapidChangeCount = 0 :=
  (trackRapidChanges_frame ⟨2, 5⟩ 1000).1 (by decide)

/-- One classifier step keeps the stored count at most 2: a fresh window
stores 1, and an in-window increment either stays below the minimum
threshold or fires and resets to 0. -/
lemma trackRapidChanges_count_le_two (s : BurstState) (now : Nat)
    (h : s.rapidChangeCount ≤ 2) :
    (trackRapidChanges s now).1.rapidChangeCount ≤ 2 := by
  simp only [trackRapidChanges]
  split_ifs with hw hq hq <;>
    simp_all [MIN_RAPID_CHANGES_TRIGGER, MAX_RAPID_CHANGES_TRIGGER,
      RAPID_CHANGE_WINDOW_MS] <;>
    omega

/-- Every reachable classifier state stores a count of at most 2. -/
lemma runBurst_count_le_two (ts : List Nat) :
    (runBurst ts).rapidChangeCount ≤ 2 := by
  have key : ∀ (l : List Nat) (s : BurstState), s.rapidChangeCount ≤ 2 →
      (l.foldl (fun s tnow => (trackRapidChanges s tnow).1) s).rapidChangeCount ≤ 2 := by
    intro l
    induction l with
    | nil => intro s hs; simpa using hs
    | cons a l ih =>
      intro s hs
      simpa using ih _ (trackRapidChanges_count_le_two s a hs)
  simpa [runBurst] using key ts initialBurstState (by decide)

/-- On states with stored count at most 2 the upper-threshold comparison
is redundant: the incremented count never exceeds 3 ≤ 6. -/
lemma trackRapidChanges_eq_noMax (s : BurstState) (now : Nat)
    (h : s.rapidChangeCount ≤ 2) :
    trackRapidChanges s now = trackRapidChangesNoMax s now := by
  simp only [trackRapidChanges, trackRapidChangesNoMax]
  by_cases hw : now - s.firstChangeInWindow > RAPID_CHANGE_WINDOW_MS
  · simp only [if_pos hw]
    norm_num [MIN_RAPID_CHANGES_TRIGGER, MAX_RAPID_CHANGES_TRIGGER]
  · simp only [if_neg hw]
    have hiff : (MIN_RAPID_CHANGES_TRIGGER ≤ s.rapidChangeCount + 1 ∧
        s.rapidChangeCount + 1 ≤ MAX_RAPID_CHANGES_TRIGGER) ↔
        MIN_RAPID_CHANGES_TRIGGER ≤ s.rapidChangeCount + 1 := by
      simp only [MIN_RAPID_CHANGES_TRIGGER, MAX_RAPID_CHANGES_TRIGGER]
      omega
    rw [if_congr hiff rfl rfl]

/-- C9: on every reachable classifier state the stored count lies in
{0, 1, 2, 3}; the count reported by the next step never exceeds the
minimum threshold 3; and the step behaves identically with the upper
threshold comparison removed, so `MAX_RAPID_CHANGES_TRIGGER` never
affects behavior. -/
theorem rapidChangeCount_invariant (ts : List Nat) (now : Nat) :
    ((runBurst ts).rapidChangeCount = 0 ∨ (runBurst ts).rapidChangeCount = 1 ∨
      (runBurst ts).rapidChangeCount = 2 ∨ (runBurst ts).rapidChangeCount = 3) ∧
    (trackRapidChanges (runBurst ts) now).2.1 ≤ MIN_RAPID_CHANGES_TRIGGER ∧
    trackRapidChanges (runBurst ts) now = trackRapidChangesNoMax (runBurst ts) now := by
  have h2 := runBurst_count_le_two ts
  refine ⟨by omega, ?_, ?_⟩
  · simp only [trackRapidChanges]
    split_ifs with hw hq hq <;>
      simp_all [MIN_RAPID_CHANGES_TRIGGER, MAX_RAPID_CHANGES_TRIGGER,
        RAPID_CHANGE_WINDOW_MS] <;>
      omega
  · exact trackRapidChanges_eq_noMax (runBurst ts) now h2

/-- C5: if `N` stable-change events arrive with the same or decreasing
spacing, all within the window length of the first event, and the first
event starts a fresh window, then the count reported at the `(k+1)`-th
event is `k + 1`, provided no qualifying burst has reset the counter at an
earlier event of the sequence. -/
theorem burst_window_counting (N : Nat) (t : Nat → Nat) (s0 : BurstState)
    (hexp : t 0 - s0.firstChangeInWindow > RAPID_CHANGE_WINDOW_MS)
    (hmono : ∀ j, j < N → ∀ i, i < j → t i ≤ t j)
    (hspace : ∀ i, i < N → 2 ≤ i → t i - t (i - 1) ≤ t (i - 1) - t (i - 2))
    (hwin : ∀ j, j < N → t j - t 0 ≤ RAPID_CHANGE_WINDOW_MS)
    (k : Nat) (hk : k < N)
    (hnb : ∀ j, j < k → burstAt s0 t j ≠ BurstResult.qualifyingBurst) :
    reportedAt s0 t k = k + 1 := by
  have key : ∀ m, m ≤ k → runBurstEvents s0 t m =
      if m = 0 then s0 else ⟨m, t 0⟩ := by
    intro m
    induction m with
    | zero => intro _; simp [runBurstEvents]
    | succ m ih =>
      intro hm
      have hmk : m < k := Nat.lt_of_succ_le hm
      have hrm := ih (Nat.le_of_lt hmk)
      have hnbm : burstAt s0 t m ≠ BurstResult.qualifyingBurst := hnb m hmk
      by_cases hm0 : m = 0
      · subst hm0
        simp [runBurstEvents, trackRapidChanges, hexp,
          MIN_RAPID_CHANGES_TRIGGER, MAX_RAPID_CHANGES_TRIGGER]
      · have hmN : m < N := Nat.lt_trans hmk hk
        have hw := hwin m hmN
        have hnw : ¬(t m - t 0 > RAPID_CHANGE_WINDOW_MS) := by omega
        simp only [runBurstEvents, hrm, if_neg hm0]
        rw [if_neg (Nat.succ_ne_zero m)]
        by_cases hq : MIN_RAPID_CHANGES_TRIGGER ≤ m + 1 ∧
            m + 1 ≤ MAX_RAPID_CHANGES_TRIGGER
        · exfalso
          apply hnbm
          simp [burstAt, hrm, if_neg hm0, trackRapidChanges, hnw, hq]
        · simp [trackRapidChanges, hnw, hq]
  by_cases hk0 : k = 0
  · subst hk0
    simp [reportedAt, runBurstEvents, trackRapidChanges, hexp,
      MIN_RAPID_CHANGES_TRIGGER, MAX_RAPID_CHANGES_TRIGGER]
  · have hrk := key k le_rfl
    have hw := hwin k hk
    have hnw : ¬(t k - t 0 > RAPID_CHANGE_WINDOW_MS) := by omega
    simp only [reportedAt, hrk, if_neg hk0]
    by_cases hq : MIN_RAPID_CHANGES_TRIGGER ≤ k + 1 ∧
        k + 1 ≤ MAX_RAPID_CHANGES_TRIGGER
    · simp [trackRapidChanges, hnw, hq]
    · simp [trackRapidChanges, hnw, hq]

/-- Witness for C5: three equally spaced events at 2500, 3000, 3500 ms
(Scenario B shifted to start a fresh window); the third event reports a
count of 3. -/
theorem burst_window_counting_witness :
    reportedAt initialBurstState (fun i => 2500 + 500 * i) 2 = 3 := by
  have h := burst_window_counting 3 (fun i => 2500 + 500 * i) initialBurstState
    (by decide) (by decide) (by decide) (by decide) 2 (by decide) (by decide)
  simpa using h

/-- Unfolding one tick at the end of a debouncer run. -/
lemma debounceRunF_succ (s0 : DebounceState) (t : Nat → Nat) (r : Nat → Bool)
    (n : Nat) :
    debounceRunF s0 t r (n + 1) =
      ((debounceStep (debounceRunF s0 t r n).1 (t n) (r n)).1,
        (debounceRunF s0 t r n).2 ++
          eventOut (t n) (debounceStep (debounceRunF s0 t r n).1 (t n) (r n)).2) := by
  simp [debounceRunF, debounceRun, List.range_succ]

/-- Unfolding one tick at the end of the Scenario A run. -/
lemma debounceRunA_succ (n : Nat) :
    debounceRunA (n + 1) =
      ((debounceStep (debounceRunA n).1 (10 * n) (rawA n)).1,
        (debounceRunA n).2 ++
          eventOut (10 * n) (debounceStep (debounceRunA n).1 (10 * n) (rawA n)).2) := by
  simp [debounceRunA, debounceRunF_succ]

/-- Scenario A, full run: the event list is empty through tick 10 (t = 100
excluded) and is exactly `[(100, HIGH)]` from tick 11 on; from tick 11 on
the debouncer state is fixed at `⟨HIGH, HIGH, 40⟩`. -/
lemma scenarioA_run (n : Nat) :
    (debounceRunA n).2 = (if n ≤ 10 then [] else [(100, true)]) ∧
    (11 ≤ n → (debounceRunA n).1 = ⟨true, true, 40⟩) := by
  induction n with
  | zero => exact ⟨by decide, by decide⟩
  | succ n ih =>
    by_cases hn : n + 1 ≤ 11
    · have hn10 : n ≤ 10 := by omega
      clear ih
      interval_cases n <;> exact ⟨by decide, by decide⟩
    · have h11 : 11 ≤ n := by omega
      obtain ⟨ihev, ihst⟩ := ih
      have hst := ihst h11
      have hraw : rawA n = true := by
        simp only [rawA, decide_eq_true_eq]
        omega
      have hstep : debounceStep (⟨true, true, 40⟩ : DebounceState) (10 * n) true =
          (⟨true, true, 40⟩, none) := by
        simp [debounceStep]
      have e1 : ¬ n ≤ 10 := by omega
      have e2 : ¬ n + 1 ≤ 10 := by omega
      refine ⟨?_, fun _ => ?_⟩
      · rw [debounceRunA_succ, hst, hraw, hstep]
        simp [ihev, eventOut, e1, e2]
      · rw [debounceRunA_succ, hst, hraw, hstep]

/-- C6 counterexample: at tick 9 (t = 90) the HIGH level has persisted for
50 ms (at least the 50 ms debounce interval) since the last raw edge at
t = 40, yet no stable-change event has been emitted by then — the commit
requires strictly more than `DEBOUNCE_MS`, so the event fires only at
t = 100, not at the first sample with ≥ 50 ms persistence. -/
theorem scenarioA_counterexample :
    rawA 9 = true ∧
    (debounceRunA 10).1.lastChangeTime = 40 ∧
    DEBOUNCE_MS ≤ 10 * 9 - (debounceRunA 10).1.lastChangeTime ∧
    (debounceRunA 10).2 = [] := by decide

/-- C6 (amended): over the whole Scenario A run the debouncer emits
exactly one stable-change event, reporting `newState = HIGH`, and it fires
at t = 100, the first sample at which HIGH has persisted strictly more
than 50 ms since the last raw edge (at t = 40). -/
theorem scenarioA_single_event (n : Nat) :
    (debounceRunA n).2 = if n ≤ 10 then [] else [(100, true)] :=
  (scenarioA_run n).1

/-- Projection of `debounceRunF_succ` to the state. -/
lemma debounceRunF_succ_fst (s0 : DebounceState) (t : Nat → Nat)
    (r : Nat → Bool) (n : Nat) :
    (debounceRunF s0 t r (n + 1)).1 =
      (debounceStep (debounceRunF s0 t r n).1 (t n) (r n)).1 := by
  rw [debounceRunF_succ]

/-- Projection of `debounceRunF_succ` to the event list. -/
lemma debounceRunF_succ_snd (s0 : DebounceState) (t : Nat → Nat)
    (r : Nat → Bool) (n : Nat) :
    (debounceRunF s0 t r (n + 1)).2 =
      (debounceRunF s0 t r n).2 ++
        eventOut (t n) (debounceStep (debounceRunF s0 t r n).1 (t n) (r n)).2 := by
  rw [debounceRunF_succ]

/-- A run over zero ticks is the initial state with no events. -/
lemma debounceRunF_zero (s0 : DebounceState) (t : Nat → Nat) (r : Nat → Bool) :
    debounceRunF s0 t r 0 = (s0, []) := rfl

/-- `isRawEdge` compares the current reading with the previous one. -/
lemma isRawEdge_eq (s0last : Bool) (r : Nat → Bool) (m : Nat) :
    isRawEdge s0last r m = (r m != (if m = 0 then s0last else r (m - 1))) := by
  by_cases hm0 : m = 0 <;> simp [isRawEdge, hm0]

/-- A stream with no raw edges up to `m` still reads the initial level. -/
lemma no_edges_reading (s0last : Bool) (r : Nat → Bool) :
    ∀ m, (∀ i, i ≤ m → isRawEdge s0last r i = false) → r m = s0last := by
  intro m
  induction m with
  | zero =>
    intro h
    have h0 := h 0 le_rfl
    simpa [isRawEdge] using h0
  | succ m ih =>
    intro h
    have hm := h (m + 1) le_rfl
    have heq : r (m + 1) = r m := by
      simpa [isRawEdge] using hm
    rw [heq]
    exact ih (fun i hi => h i (le_trans hi (Nat.le_succ m)))

/-- Chatter invariant: on a run whose raw edges are pairwise within one
debounce interval, starting from a consistent state, after `m ≤ n` ticks
either no event has been emitted (stable state unchanged, change time
stamped at the latest edge if any), or exactly one event has been
emitted, at a tick more than `DEBOUNCE_MS` after the latest edge, and
every reading from that tick on equals the emitted state. -/
lemma chatter_invariant (s0 : DebounceState) (t : Nat → Nat) (r : Nat → Bool)
    (n : Nat)
    (hinit : s0.stableTriggerState = s0.lastReading)
    (hmono : ∀ j, j < n → ∀ i, i < j → t i < t j)
    (hchat : ∀ j, j < n → ∀ i, i ≤ j → isRawEdge s0.lastReading r i = true →
      isRawEdge s0.lastReading r j = true → t j - t i ≤ DEBOUNCE_MS) :
    ∀ m, m ≤ n →
      (debounceRunF s0 t r m).1.lastReading =
          (if m = 0 then s0.lastReading else r (m - 1)) ∧
      (((debounceRunF s0 t r m).2 = [] ∧
        (debounceRunF s0 t r m).1.stableTriggerState = s0.stableTriggerState ∧
        (((∀ i, i < m → isRawEdge s0.lastReading r i = false) ∧
          (debounceRunF s0 t r m).1.lastChangeTime = s0.lastChangeTime) ∨
         (∃ e, e < m ∧ isRawEdge s0.lastReading r e = true ∧
           (debounceRunF s0 t r m).1.lastChangeTime = t e))) ∨
       (∃ c e, c < m ∧ e ≤ c ∧ isRawEdge s0.lastReading r e = true ∧
         (debounceRunF s0 t r m).1.lastChangeTime = t e ∧
         DEBOUNCE_MS < t c - t e ∧
         (debounceRunF s0 t r m).2 = [(t c, r c)] ∧
         (debounceRunF s0 t r m).1.stableTriggerState = r c ∧
         (∀ j, c ≤ j → j < m → r j = r c))) := by
  intro m
  induction m with
  | zero =>
    intro _
    refine ⟨by rw [debounceRunF_zero]; simp,
      Or.inl ⟨by rw [debounceRunF_zero], by rw [debounceRunF_zero],
        Or.inl ⟨fun i hi => absurd hi (Nat.not_lt_zero i),
          by rw [debounceRunF_zero]⟩⟩⟩
  | succ m ih =>
    intro hm1
    have hmn : m < n := hm1
    obtain ⟨ihlast, ihcase⟩ := ih (Nat.le_of_lt hmn)
    by_cases hedge : isRawEdge s0.lastReading r m = true
    · -- a raw edge at tick m: restamp, never commit at the edge tick
      have hedge' : r m ≠ (if m = 0 then s0.lastReading else r (m - 1)) := by
        rw [isRawEdge_eq] at hedge
        simpa using hedge
      have hne : r m ≠ (debounceRunF s0 t r m).1.lastReading := by
        rw [ihlast]; exact hedge'
      have hstep : debounceStep (debounceRunF s0 t r m).1 (t m) (r m) =
          ({ (debounceRunF s0 t r m).1 with
              lastChangeTime := t m, lastReading := r m }, none) := by
        simp [debounceStep, hne, DEBOUNCE_MS]
      rcases ihcase with ⟨hev, hstab, _⟩ |
        ⟨c, e, hc, hec, hee, _, hgap, _, _, _⟩
      · refine ⟨?_, Or.inl ⟨?_, ?_, Or.inr ⟨m, Nat.lt_succ_self m, hedge, ?_⟩⟩⟩
        · rw [debounceRunF_succ_fst, hstep]; simp
        · rw [debounceRunF_succ_snd, hstep, hev]; simp [eventOut]
        · rw [debounceRunF_succ_fst, hstep]; simpa using hstab
        · rw [debounceRunF_succ_fst, hstep]
      · exfalso
        have htec : t e ≤ t c := by
          rcases Nat.lt_or_ge e c with h | h
          · exact Nat.le_of_lt (hmono c (Nat.lt_trans hc hmn) e h)
          · have he : e = c := Nat.le_antisymm hec h
            rw [he]
        have htcm : t c < t m := hmono m hmn c hc
        have hle := hchat m hmn e (Nat.le_trans hec (Nat.le_of_lt hc)) hee hedge
        simp only [DEBOUNCE_MS] at hgap hle
        omega
    · -- no raw edge at tick m
      have hnedge : isRawEdge s0.lastReading r m = false := by
        simpa using hedge
      have hx : r m = (if m = 0 then s0.lastReading else r (m - 1)) := by
        rw [isRawEdge_eq] at hnedge
        simpa using hnedge
      have hreq : r m = (debounceRunF s0 t r m).1.lastReading := by
        rw [ihlast]; exact hx
      have hs1 : ¬(r m ≠ (debounceRunF s0 t r m).1.lastReading) := fun h => h hreq
      have hlastgoal : (if m + 1 = 0 then s0.lastReading else r (m + 1 - 1)) = r m := by
        simp
      rcases ihcase with ⟨hev, hstab, hA⟩ |
        ⟨c, e, hc, hec, hee, hlct, hgap, hev, hstab, hconst⟩
      · rcases hA with ⟨hnoe, hlct⟩ | ⟨e, he, hee, hlct⟩
        · -- no edges at all so far: the reading still equals the stable state
          have hrm : r m = s0.lastReading := by
            apply no_edges_reading s0.lastReading r m
            intro i hi
            rcases Nat.lt_or_ge i m with h | h
            · exact hnoe i h
            · have hi' : i = m := Nat.le_antisymm hi h
              rw [hi']; exact hnedge
          have hncommit : ¬(t m - (debounceRunF s0 t r m).1.lastChangeTime > DEBOUNCE_MS ∧
              r m ≠ (debounceRunF s0 t r m).1.stableTriggerState) := by
            rintro ⟨-, hne2⟩
            exact hne2 (by rw [hstab, hinit]; exact hrm)
          have hstep : debounceStep (debounceRunF s0 t r m).1 (t m) (r m) =
              ((debounceRunF s0 t r m).1, none) := by
            simp only [debounceStep, if_neg hs1]
            rw [if_neg hncommit]
          refine ⟨?_, Or.inl ⟨?_, ?_, Or.inl ⟨?_, ?_⟩⟩⟩
          · rw [debounceRunF_succ_fst, hstep, hlastgoal]; exact hreq.symm
          · rw [debounceRunF_succ_snd, hstep, hev]; simp [eventOut]
          · rw [debounceRunF_succ_fst, hstep]; exact hstab
          · intro i hi
            rcases Nat.lt_or_ge i m with h | h
            · exact hnoe i h
            · have hi' : i = m := by omega
              rw [hi']; exact hnedge
          · rw [debounceRunF_succ_fst, hstep]; exact hlct
        · -- a latest edge e exists and no event yet
          by_cases hcommit : t m - t e > DEBOUNCE_MS ∧ r m ≠ s0.stableTriggerState
          · -- commit at tick m: enter the one-event phase
            have hcond : t m - (debounceRunF s0 t r m).1.lastChangeTime > DEBOUNCE_MS ∧
                r m ≠ (debounceRunF s0 t r m).1.stableTriggerState := by
              rw [hlct, hstab]; exact hcommit
            have hstep : debounceStep (debounceRunF s0 t r m).1 (t m) (r m) =
                ({ (debounceRunF s0 t r m).1 with stableTriggerState := r m },
                  some (r m)) := by
              simp only [debounceStep, if_neg hs1]
              rw [if_pos hcond]
            refine ⟨?_, Or.inr ⟨m, e, Nat.lt_succ_self m, Nat.le_of_lt he, hee,
              ?_, hcommit.1, ?_, ?_, ?_⟩⟩
            · rw [debounceRunF_succ_fst, hstep, hlastgoal]
              simpa using hreq.symm
            · rw [debounceRunF_succ_fst, hstep]; simpa using hlct
            · rw [debounceRunF_succ_snd, hstep, hev]; simp [eventOut]
            · rw [debounceRunF_succ_fst, hstep]
            · intro j hj1 hj2
              have hj : j = m := by omega
              rw [hj]
          · -- below the interval (or same stable state): nothing happens
            have hncond : ¬(t m - (debounceRunF s0 t r m).1.lastChangeTime > DEBOUNCE_MS ∧
                r m ≠ (debounceRunF s0 t r m).1.stableTriggerState) := by
              rw [hlct, hstab]; exact hcommit
            have hstep : debounceStep (debounceRunF s0 t r m).1 (t m) (r m) =
                ((debounceRunF s0 t r m).1, none) := by
              simp only [debounceStep, if_neg hs1]
              rw [if_neg hncond]
            refine ⟨?_, Or.inl ⟨?_, ?_, Or.inr ⟨e, Nat.lt_succ_of_lt he, hee, ?_⟩⟩⟩
            · rw [debounceRunF_succ_fst, hstep, hlastgoal]; exact hreq.symm
            · rw [debounceRunF_succ_snd, hstep, hev]; simp [eventOut]
            · rw [debounceRunF_succ_fst, hstep]; exact hstab
            · rw [debounceRunF_succ_fst, hstep]; exact hlct
      · -- the single event has already fired: the state is frozen
        have hm0 : m ≠ 0 := by omega
        have hrmc : r m = r c := by
          have hc1 : r (m - 1) = r c := hconst (m - 1) (by omega) (by omega)
          rw [hreq, ihlast, if_neg hm0]; exact hc1
        have hncond : ¬(t m - (debounceRunF s0 t r m).1.lastChangeTime > DEBOUNCE_MS ∧
            r m ≠ (debounceRunF s0 t r m).1.stableTriggerState) := by
          rintro ⟨-, hne2⟩
          exact hne2 (by rw [hstab]; exact hrmc)
        have hstep : debounceStep (debounceRunF s0 t r m).1 (t m) (r m) =
            ((debounceRunF s0 t r m).1, none) := by
          simp only [debounceStep, if_neg hs1]
          rw [if_neg hncond]
        refine ⟨?_, Or.inr ⟨c, e, Nat.lt_succ_of_lt hc, hec, hee, ?_, hgap,
          ?_, ?_, ?_⟩⟩
        · rw [debounceRunF_succ_fst, hstep, hlastgoal]; exact hreq.symm
        · rw [debounceRunF_succ_fst, hstep]; exact hlct
        · rw [debounceRunF_succ_snd, hstep, hev]; simp [eventOut]
        · rw [debounceRunF_succ_fst, hstep]; exact hstab
        · intro j hj1 hj2
          rcases Nat.lt_or_ge j m with h | h
          · exact hconst j hj1 h
          · have hj : j = m := by omega
            rw [hj]; exact hrmc

/-- C7: on any run of ticks starting from a consistent debouncer state,
with strictly increasing tick times, in which all raw edges lie within
one debounce interval of each other, at most one stable-change event is
emitted, and any emitted event reports the raw level present at the end
of the run. -/
theorem chatter_rejection (s0 : DebounceState) (t : Nat → Nat)
    (r : Nat → Bool) (n : Nat)
    (hinit : s0.stableTriggerState = s0.lastReading)
    (hmono : ∀ j, j < n → ∀ i, i < j → t i < t j)
    (hchat : ∀ j, j < n → ∀ i, i ≤ j → isRawEdge s0.lastReading r i = true →
      isRawEdge s0.lastReading r j = true → t j - t i ≤ DEBOUNCE_MS) :
    (debounceRunF s0 t r n).2.length ≤ 1 ∧
    ∀ p ∈ (debounceRunF s0 t r n).2, p.2 = r (n - 1) := by
  obtain ⟨-, hcase⟩ := chatter_invariant s0 t r n hinit hmono hchat n le_rfl
  rcases hcase with ⟨hev, -, -⟩ | ⟨c, e, hc, -, -, -, -, hev, -, hconst⟩
  · rw [hev]
    exact ⟨by simp, by simp⟩
  · rw [hev]
    refine ⟨by simp, ?_⟩
    intro p hp
    have hc1 : r (n - 1) = r c := hconst (n - 1) (by omega) (by omega)
    simp only [List.mem_singleton] at hp
    rw [hp, hc1]

/-- Witness for C7: the Scenario A-style chatter LOW,LOW,HIGH,LOW,HIGH,
HIGH,... sampled every 10 ms (all edges within 20 ms of each other) over
30 ticks: at most one event, and it matches the final HIGH level. -/
theorem chatter_rejection_witness :
    (debounceRunF ⟨false, false, 0⟩ (fun i => 10 * i)
        (fun i => decide (2 ≤ i ∧ i ≠ 3)) 30).2.length ≤ 1 ∧
    ∀ p ∈ (debounceRunF ⟨false, false, 0⟩ (fun i => 10 * i)
        (fun i => decide (2 ≤ i ∧ i ≠ 3)) 30).2,
      p.2 = (fun i => decide (2 ≤ i ∧ i ≠ 3)) (30 - 1) :=
  chatter_rejection ⟨false, false, 0⟩ (fun i => 10 * i)
    (fun i => decide (2 ≤ i ∧ i ≠ 3)) 30 (by decide) (by decide) (by decide)

/-- Release lemma: executing any single action starting from a
non-driving power-button line leaves it non-driving. -/
lemma powerBtnDrivingAfter_executeTrace (k : ActionKind) :
    powerBtnDrivingAfter false (executeTrace k) = false := by
  cases k <;> rfl

/-- Driving status after concatenated effects threads through. -/
lemma powerBtnDrivingAfter_append (b : Bool) (xs ys : List Effect) :
    powerBtnDrivingAfter b (xs ++ ys) =
      powerBtnDrivingAfter (powerBtnDrivingAfter b xs) ys := by
  simp [powerBtnDrivingAfter, List.foldl_append]

/-- After any sequence of completed actions the line is non-driving. -/
lemma executeAllTrace_notDriving (reqs : List ActionKind) :
    powerBtnDrivingAfter false (executeAllTrace reqs) = false := by
  induction reqs with
  | nil => rfl
  | cons k ks ih =>
    simp [executeAllTrace, powerBtnDrivingAfter_append,
      powerBtnDrivingAfter_executeTrace, ih]

/-- C8: every non-`noAction` execution is exactly the sequence: indicator
on, pin to output, drive LOW, hold for the request's duration, release to
high-impedance input, indicator off; and after any prefix of completed
actions (starting from the setup state, pin in input mode) the
power-button line is not driving. -/
theorem executeTrace_sequence_and_release (k : ActionKind)
    (reqs : List ActionKind) (m : Nat) :
    (k ≠ ActionKind.noAction →
      executeTrace k =
        [Effect.setPressActiveLED true,
         Effect.setPowerBtnMode PinDir.outputMode,
         Effect.writePowerBtnLow,
         Effect.wait (requestDuration k),
         Effect.setPowerBtnMode PinDir.inputMode,
         Effect.setPressActiveLED false]) ∧
    powerBtnDrivingAfter false (executeAllTrace (reqs.take m)) = false := by
  constructor
  · intro hk
    cases k
    · exact absurd rfl hk
    · rfl
    · rfl
  · exact executeAllTrace_notDriving _

/-- Witness for C8 at concrete inputs: the momentary press executes the
full assert/drive/hold/release/clear sequence, and after a held shutdown
followed by a press the line is back to non-driving. -/
theorem executeTrace_sequence_and_release_witness :
    executeTrace ActionKind.momentaryPress =
      [Effect.setPressActiveLED true,
       Effect.setPowerBtnMode PinDir.outputMode,
       Effect.writePowerBtnLow,
       Effect.wait 200,
       Effect.setPowerBtnMode PinDir.inputMode,
       Effect.setPressActiveLED false] ∧
    powerBtnDrivingAfter false
      (executeAllTrace
        ([ActionKind.heldShutdown, ActionKind.momentaryPress].take 2)) = false :=
  ⟨(executeTrace_sequence_and_release ActionKind.momentaryPress
      [ActionKind.heldShutdown, ActionKind.momentaryPress] 2).1 (by decide),
   (executeTrace_sequence_and_release ActionKind.momentaryPress
      [ActionKind.heldShutdown, ActionKind.momentaryPress] 2).2⟩

end ESP32Case
